import Mathlib

/-!
Verification development for the parabol repository extract: the
voteForReflectionGroup GraphQL mutation resolver, the User.updatedAt
trigger migration, the useSpotlightColumns layout hook and the
StageTimerModalEndTimeSlackToggle component, shallowly embedded in Lean.
-/

/-- A stage of a meeting phase (GenericMeetingStage), carrying the
navigability flags and the completion flag the resolver reads. -/
structure GenericMeetingStage where
  id : String
  isComplete : Bool
  isNavigable : Bool
  isNavigableByFacilitator : Bool
  deriving Repr, DecidableEq

/-- A meeting phase (GenericMeetingPhase): a phase type name and its stages. -/
structure GenericMeetingPhase where
  phaseType : String
  stages : List GenericMeetingStage
  deriving Repr, DecidableEq

/-- A RetroReflectionGroup record as the resolver reads it. -/
structure ReflectionGroup where
  id : String
  meetingId : String
  isActive : Bool
  voterIds : List String
  deriving Repr, DecidableEq

/-- The fields of a NewMeeting (MeetingRetrospective) record destructured by
the resolver. -/
structure MeetingRetrospective where
  id : String
  endedAt : Option Nat
  phases : List GenericMeetingPhase
  maxVotesPerGroup : Nat
  teamId : String
  deriving Repr, DecidableEq

/-- A MeetingMember record as returned by the member lookup. -/
structure MeetingMember where
  id : String
  meetingId : String
  userId : String
  deriving Repr, DecidableEq

/-- Modelled from the spec: the auth token consulted by the authorization
utilities getUserId and isTeamMember (server/utils/authorization, not under
src/). Per the spec the resolver authenticates the caller and authorizes
against the meeting team, so the token carries the caller id and the ids of
the teams the caller belongs to. -/
structure AuthToken where
  sub : String
  tms : List String
  deriving Repr, DecidableEq

/-- Modelled from the spec: getUserId (server/utils/authorization, not under
src/) returns the id of the authenticated caller carried by the token. -/
def getUserId (authToken : AuthToken) : String :=
  authToken.sub

/-- Modelled from the spec: isTeamMember (server/utils/authorization, not
under src/) holds when the token lists the given team. -/
def isTeamMember (authToken : AuthToken) (teamId : String) : Bool :=
  authToken.tms.contains teamId

/-- Modelled from the spec: the VOTE phase-type constant
(parabol-client/utils/constants, not under src/); the glossary names the
retrospective phases reflect, group, vote, discuss. -/
def VOTE : String := "vote"

namespace SubscriptionChannel

/-- Modelled from the spec: SubscriptionChannel.MEETING
(parabol-client/types/constEnums, not under src/), the pub-sub topic keyed
by meeting id. -/
def MEETING : String := "meeting"

end SubscriptionChannel

/-- Modelled from the spec: isPhaseComplete
(parabol-client/utils/meetings/isPhaseComplete, not under src/) tells
whether the phase of the given type has been completed, i.e. every stage of
that phase is complete. -/
def isPhaseComplete (phaseType : String) (phases : List GenericMeetingPhase) : Bool :=
  match phases.find? (fun p => p.phaseType == phaseType) with
  | some p => p.stages.all (fun s => s.isComplete)
  | none => false

/-- Sets the navigability flag selected by isForFacilitator on one stage. -/
def setStageNavigability (isForFacilitator : Bool) (isUnlock : Bool)
    (s : GenericMeetingStage) : GenericMeetingStage :=
  if isForFacilitator then { s with isNavigableByFacilitator := isUnlock }
  else { s with isNavigable := isUnlock }

/-- Rewrites the first phase of the given type, setting the selected
navigability flag of each of its stages to isUnlock. -/
def unlockStagesInPhaseList (phaseType : String) (isForFacilitator : Bool)
    (isUnlock : Bool) : List GenericMeetingPhase → List GenericMeetingPhase
  | [] => []
  | p :: rest =>
    if p.phaseType == phaseType then
      { p with stages := p.stages.map (setStageNavigability isForFacilitator isUnlock) } :: rest
    else
      p :: unlockStagesInPhaseList phaseType isForFacilitator isUnlock rest

/-- Modelled from the spec: unlockAllStagesForPhase
(parabol-client/utils/unlockAllStagesForPhase, not under src/). Per the
spec a meeting phase is a named set of stages, each with navigability
flags; this helper updates in place the first phase of the given type,
setting the navigability flag of every one of its stages to isUnlock, and
yields the ids of the stages it touched. The source dereferences the found
phase unconditionally, so the absence of the phase is a failure (none). -/
def unlockAllStagesForPhase (phases : List GenericMeetingPhase) (phaseType : String)
    (isForFacilitator : Bool) (isUnlock : Bool) :
    Option (List GenericMeetingPhase × List String) :=
  match phases.find? (fun p => p.phaseType == phaseType) with
  | none => none
  | some phase =>
    some (unlockStagesInPhaseList phaseType isForFacilitator isUnlock phases,
      phase.stages.map (fun s => s.id))

/-- The data object the resolver builds, publishes and returns
(VoteForReflectionGroupPayload source data). -/
structure VoteForReflectionGroupData where
  meetingId : String
  userId : String
  reflectionGroupId : String
  unlockedStageIds : Option (List String)
  deriving Repr, DecidableEq

/-- Observable events of one resolver execution, in program order: database
reads, passed auth/validation checks, the vote write performed by the vote
helpers, the vote-state load, the phases update, and the publish call. -/
inductive ResolverEvent where
  | dbReadReflectionGroup (reflectionGroupId : String)
  | dbReadMeeting (meetingId : String)
  | authCheckPassed (checkName : String)
  | dbReadMeetingMember (meetingId : String) (userId : String)
  | voteWrite (isUnvote : Bool) (meetingId : String) (userId : String)
      (reflectionGroupId : String)
  | dbReadVoteState (meetingId : String)
  | dbUpdatePhases (meetingId : String) (phases : List GenericMeetingPhase)
  | publishEvent (channel : String) (channelKey : String) (typeName : String)
      (data : VoteForReflectionGroupData)
  deriving Repr, DecidableEq

/-- True for the events that write meeting or vote state or publish. -/
def isMutationEvent : ResolverEvent → Bool
  | ResolverEvent.voteWrite _ _ _ _ => true
  | ResolverEvent.dbUpdatePhases _ _ => true
  | ResolverEvent.publishEvent _ _ _ _ => true
  | _ => false

/-- True exactly for publish events. -/
def isPublishEvent : ResolverEvent → Bool
  | ResolverEvent.publishEvent _ _ _ _ => true
  | _ => false

/-- Result of one resolver execution: an error payload from standardError, a
thrown runtime exception (the non-null assertion on the discuss phase or the
destructuring of a missing first stage), or the success payload. -/
inductive ResolveResult where
  | error (message : String) (userId : String)
  | crash
  | success (data : VoteForReflectionGroupData)
  deriving Repr, DecidableEq

/-- Modelled from the spec: standardError (server/utils/standardError, not
under src/) wraps an error message into the error payload returned to the
caller. -/
def standardError (message : String) (userId : String) : ResolveResult :=
  ResolveResult.error message userId

/-- The results of the database reads and of the vote helpers during one
resolver execution. reflectionGroup is the read of the requested group;
meeting is the NewMeeting read (the source casts it unconditionally);
meetingMember is the member lookup; votingError is the outcome of
safelyCastVote / safelyWithdrawVote (helpers not under src/; modelled from
the spec as the conditional vote write that either fails with an error
payload and writes nothing, or succeeds and records the vote);
reflectionGroups is the dataLoader load of the meeting groups. -/
structure ResolverEnv where
  reflectionGroup : Option ReflectionGroup
  meeting : MeetingRetrospective
  meetingMember : Option MeetingMember
  votingError : Option String
  reflectionGroups : List ReflectionGroup
  deriving Repr, DecidableEq

/-- The vote tally of the loaded reflection groups, as the resolver computes
it (reduce over the groups of the voterIds length, from 0). -/
def voteCount (reflectionGroups : List ReflectionGroup) : Nat :=
  reflectionGroups.foldl (fun sum group => sum + group.voterIds.length) 0

/-- The events every successful execution emits before the conditional
phases update and the publish call, in program order. -/
def successReadEvents (isUnvote : Bool) (meetingId userId reflectionGroupId : String) :
    List ResolverEvent :=
  [ResolverEvent.dbReadReflectionGroup reflectionGroupId,
   ResolverEvent.dbReadMeeting meetingId,
   ResolverEvent.authCheckPassed "isTeamMember",
   ResolverEvent.authCheckPassed "meetingNotEnded",
   ResolverEvent.authCheckPassed "votePhaseIncomplete",
   ResolverEvent.dbReadMeetingMember meetingId userId,
   ResolverEvent.voteWrite isUnvote meetingId userId reflectionGroupId,
   ResolverEvent.dbReadVoteState meetingId]

/-- The resolve function of the voteForReflectionGroup mutation, embedded
over the read results in env; it returns the result together with the list
of observable events in the order the source performs them. -/
def resolve (env : ResolverEnv) (authToken : AuthToken) (isUnvote : Bool)
    (reflectionGroupId : String) : ResolveResult × List ResolverEvent :=
  let viewerId := getUserId authToken
  match env.reflectionGroup with
  | none =>
    (standardError "Reflection group not found" viewerId,
      [ResolverEvent.dbReadReflectionGroup reflectionGroupId])
  | some reflectionGroup =>
    if !reflectionGroup.isActive then
      (standardError "Reflection group not found" viewerId,
        [ResolverEvent.dbReadReflectionGroup reflectionGroupId])
    else
      let meetingId := reflectionGroup.meetingId
      let meeting := env.meeting
      if !isTeamMember authToken meeting.teamId then
        (standardError "Team not found" viewerId,
          [ResolverEvent.dbReadReflectionGroup reflectionGroupId,
           ResolverEvent.dbReadMeeting meetingId])
      else if meeting.endedAt.isSome then
        (standardError "Meeting already ended" viewerId,
          [ResolverEvent.dbReadReflectionGroup reflectionGroupId,
           ResolverEvent.dbReadMeeting meetingId,
           ResolverEvent.authCheckPassed "isTeamMember"])
      else if isPhaseComplete VOTE meeting.phases then
        (standardError "Meeting phase already completed" viewerId,
          [ResolverEvent.dbReadReflectionGroup reflectionGroupId,
           ResolverEvent.dbReadMeeting meetingId,
           ResolverEvent.authCheckPassed "isTeamMember",
           ResolverEvent.authCheckPassed "meetingNotEnded"])
      else
        match env.meetingMember with
        | none =>
          (standardError "Meeting member not found" viewerId,
            [ResolverEvent.dbReadReflectionGroup reflectionGroupId,
             ResolverEvent.dbReadMeeting meetingId,
             ResolverEvent.authCheckPassed "isTeamMember",
             ResolverEvent.authCheckPassed "meetingNotEnded",
             ResolverEvent.authCheckPassed "votePhaseIncomplete",
             ResolverEvent.dbReadMeetingMember meetingId viewerId])
        | some _ =>
          match env.votingError with
          | some message =>
            (ResolveResult.error message viewerId,
              [ResolverEvent.dbReadReflectionGroup reflectionGroupId,
               ResolverEvent.dbReadMeeting meetingId,
               ResolverEvent.authCheckPassed "isTeamMember",
               ResolverEvent.authCheckPassed "meetingNotEnded",
               ResolverEvent.authCheckPassed "votePhaseIncomplete",
               ResolverEvent.dbReadMeetingMember meetingId viewerId])
          | none =>
            let voteCnt := voteCount env.reflectionGroups
            if !isUnvote then
              match meeting.phases.find? (fun p => p.phaseType == "discuss") with
              | none =>
                (ResolveResult.crash,
                  successReadEvents isUnvote meetingId viewerId reflectionGroupId)
              | some discussPhase =>
                match discussPhase.stages with
                | [] =>
                  (ResolveResult.crash,
                    successReadEvents isUnvote meetingId viewerId reflectionGroupId)
                | firstStage :: _ =>
                  if !firstStage.isNavigableByFacilitator then
                    match unlockAllStagesForPhase meeting.phases "discuss" true true with
                    | none =>
                      (ResolveResult.crash,
                        successReadEvents isUnvote meetingId viewerId reflectionGroupId)
                    | some (newPhases, stageIds) =>
                      let data : VoteForReflectionGroupData :=
                        ⟨meetingId, viewerId, reflectionGroupId, some stageIds⟩
                      (ResolveResult.success data,
                        successReadEvents isUnvote meetingId viewerId reflectionGroupId ++
                          [ResolverEvent.dbUpdatePhases meetingId newPhases,
                           ResolverEvent.publishEvent SubscriptionChannel.MEETING meetingId
                             "VoteForReflectionGroupPayload" data])
                  else
                    let data : VoteForReflectionGroupData :=
                      ⟨meetingId, viewerId, reflectionGroupId, none⟩
                    (ResolveResult.success data,
                      successReadEvents isUnvote meetingId viewerId reflectionGroupId ++
                        [ResolverEvent.publishEvent SubscriptionChannel.MEETING meetingId
                           "VoteForReflectionGroupPayload" data])
            else
              if voteCnt == 0 then
                match unlockAllStagesForPhase meeting.phases "discuss" true false with
                | none =>
                  (ResolveResult.crash,
                    successReadEvents isUnvote meetingId viewerId reflectionGroupId)
                | some (newPhases, stageIds) =>
                  let data : VoteForReflectionGroupData :=
                    ⟨meetingId, viewerId, reflectionGroupId, some stageIds⟩
                  (ResolveResult.success data,
                    successReadEvents isUnvote meetingId viewerId reflectionGroupId ++
                      [ResolverEvent.dbUpdatePhases meetingId newPhases,
                       ResolverEvent.publishEvent SubscriptionChannel.MEETING meetingId
                         "VoteForReflectionGroupPayload" data])
              else
                let data : VoteForReflectionGroupData :=
                  ⟨meetingId, viewerId, reflectionGroupId, none⟩
                (ResolveResult.success data,
                  successReadEvents isUnvote meetingId viewerId reflectionGroupId ++
                    [ResolverEvent.publishEvent SubscriptionChannel.MEETING meetingId
                       "VoteForReflectionGroupPayload" data])

/-- The semantics of the RethinkDB partial update the resolver issues,
r.table(NewMeeting).get(meetingId).update with only the phases field: the
stored record is merged with that one field, every other field kept. -/
def applyPhasesUpdate (m : MeetingRetrospective) (phases : List GenericMeetingPhase) :
    MeetingRetrospective :=
  { m with phases := phases }

namespace Migration

/-- The part of the relational schema state this migration touches: whether
the set_updatedAt function and the update_User_updatedAt trigger on the
User table exist. -/
structure PgSchemaState where
  hasSetUpdatedAtFn : Bool
  hasUserUpdatedAtTrigger : Bool
  deriving Repr, DecidableEq

/-- The up() migration: one query string holding CREATE OR REPLACE FUNCTION
set_updatedAt (never fails) and CREATE TRIGGER update_User_updatedAt (fails
when the trigger already exists). A multi-statement simple query runs in one
implicit transaction, so a failure leaves the schema unchanged (none). -/
def up (s : PgSchemaState) : Option PgSchemaState :=
  if s.hasUserUpdatedAtTrigger then none
  else some { hasSetUpdatedAtFn := true, hasUserUpdatedAtTrigger := true }

/-- The down() migration: one query string holding DROP TRIGGER
update_User_updatedAt followed by DROP FUNCTION set_updatedAt, each failing
when its object is missing; a failure leaves the schema unchanged (none). -/
def down (s : PgSchemaState) : Option PgSchemaState :=
  if s.hasUserUpdatedAtTrigger && s.hasSetUpdatedAtFn then
    some { hasSetUpdatedAtFn := false, hasUserUpdatedAtTrigger := false }
  else none

/-- A row of the relational User table, reduced to the columns the trigger
touches plus representative other columns. -/
structure UserRow where
  id : String
  email : String
  updatedAt : Nat
  deriving Repr, DecidableEq

/-- The body of the PLPGSQL function set_updatedAt: NEW.updatedAt is set to
now() and NEW is returned. -/
def set_updatedAt (now : Nat) (new : UserRow) : UserRow :=
  { new with updatedAt := now }

/-- The effect of one UPDATE statement on one User row under schema state s:
the SET clause produces the proposed new row, and when the BEFORE UPDATE
trigger update_User_updatedAt exists (with its function) it rewrites the
proposed row through set_updatedAt before the row is stored. -/
def applyUserUpdate (s : PgSchemaState) (now : Nat) (setClause : UserRow → UserRow)
    (row : UserRow) : UserRow :=
  let proposed := setClause row
  if s.hasUserUpdatedAtTrigger && s.hasSetUpdatedAtFn then set_updatedAt now proposed
  else proposed

end Migration

/-- The layout computation of useSpotlightColumns, embedded as a function of
the card-width constant ElementWidth.MEETING_CARD_WITH_MARGIN (from
constEnums, not under src/, kept as a parameter), the measured container
width and the group count; none models the early return on a falsy width,
and the hook otherwise sets the returned column index list. -/
def useSpotlightColumns (cardWidth : Nat) (width : Nat) (groupsCount : Nat) :
    Option (List Nat) :=
  if width = 0 then none
  else if groupsCount ≤ 2 then some [0]
  else
    let maxColumnsLargeScreen := 3
    let minColumns := 1
    let minGroupsPerColumn := 2
    let maxColumnsInRef := width / cardWidth
    let maxColumns := max (min maxColumnsInRef maxColumnsLargeScreen) minColumns
    let groupsPerColumn := (groupsCount + maxColumns - 1) / maxColumns
    let columnsCount :=
      if groupsPerColumn < minGroupsPerColumn ∧ maxColumns ≠ minColumns then maxColumns - 1
      else maxColumns
    some (List.range columnsCount)

/-- The maxColumns value useSpotlightColumns computes for a container width:
the in-container column capacity clamped between 1 and 3. -/
def spotlightMaxColumns (cardWidth : Nat) (width : Nat) : Nat :=
  max (min (width / cardWidth) 3) 1

/-- The ceiling of groups over columns, as Math.ceil computes it for
positive m. -/
def spotlightGroupsPerColumn (groupsCount m : Nat) : Nat :=
  (groupsCount + m - 1) / m

/-- One entry of the facilitator Slack notifications list read by
StageTimerModalEndTimeSlackToggle. -/
structure SlackNotification where
  channelId : Option String
  event : String
  deriving Repr, DecidableEq

/-- The slack integration record of the facilitator as the component reads
it. -/
structure SlackIntegration where
  isActive : Bool
  defaultTeamChannelId : String
  notifications : List SlackNotification
  deriving Repr, DecidableEq

/-- JS truthiness of a nullable string: null and the empty string are falsy. -/
def truthyString : Option String → Bool
  | none => false
  | some s => s ≠ ""

/-- The slackToggleActive value of StageTimerModalEndTimeSlackToggle: the
first notification whose event is MEETING_STAGE_TIME_LIMIT_START, when
present, with a truthy channelId. -/
def slackToggleActive (notifications : List SlackNotification) : Bool :=
  match notifications.find? (fun n => n.event == "MEETING_STAGE_TIME_LIMIT_START") with
  | some timeLimitEvent => truthyString timeLimitEvent.channelId
  | none => false

/-- The claim reads the toggle as an existence check over the whole
notifications list: some entry has the event MEETING_STAGE_TIME_LIMIT_START
and a non-null channelId. Stated from the claim words, for comparison with
slackToggleActive. -/
def slackToggleActiveClaim (notifications : List SlackNotification) : Bool :=
  notifications.any (fun n =>
    n.event == "MEETING_STAGE_TIME_LIMIT_START" && n.channelId.isSome)

/-- What one click of the toggle does: send the SetSlackNotification
mutation with these variables, do nothing (a submission is in flight), or
open the Slack OAuth flow. -/
inductive ClickAction where
  | sendMutation (slackChannelId : Option String) (slackNotificationEvents : List String)
      (teamId : String)
  | ignored
  | openOAuth (teamId : String)
  deriving Repr, DecidableEq

/-- The onClick handler of StageTimerModalEndTimeSlackToggle. -/
def onClick (slack : Option SlackIntegration) (submitting : Bool) (teamId : String) :
    ClickAction :=
  match slack with
  | some sl =>
    if sl.isActive then
      if submitting then ClickAction.ignored
      else
        ClickAction.sendMutation
          (if slackToggleActive sl.notifications then none else some sl.defaultTeamChannelId)
          ["MEETING_STAGE_TIME_LIMIT_START"] teamId
    else ClickAction.openOAuth teamId
  | none => ClickAction.openOAuth teamId

/-! Concrete fixtures used by the witness theorems. -/

/-- A vote-phase stage that is not yet complete. -/
def testVoteStage : GenericMeetingStage := ⟨"voteStage1", false, true, true⟩

/-- A discuss-phase stage not yet navigable by the facilitator. -/
def testDiscussStageLocked : GenericMeetingStage := ⟨"discussStage1", false, false, false⟩

/-- The vote phase of the fixture meeting. -/
def testVotePhase : GenericMeetingPhase := ⟨"vote", [testVoteStage]⟩

/-- The discuss phase of the fixture meeting, still locked. -/
def testDiscussPhase : GenericMeetingPhase := ⟨"discuss", [testDiscussStageLocked]⟩

/-- A running retrospective meeting of team1. -/
def testMeeting : MeetingRetrospective :=
  ⟨"meeting1", none, [testVotePhase, testDiscussPhase], 3, "team1"⟩

/-- An active reflection group of the fixture meeting with one vote. -/
def testGroup : ReflectionGroup := ⟨"group1", "meeting1", true, ["user1"]⟩

/-- The auth token of user1, a member of team1. -/
def testToken : AuthToken := ⟨"user1", ["team1"]⟩

/-- The meeting-member record of user1 in the fixture meeting. -/
def testMember : MeetingMember := ⟨"mm1", "meeting1", "user1"⟩

/-- An environment in which every check passes and a cast vote unlocks the
discuss phase. -/
def testEnv : ResolverEnv := ⟨some testGroup, testMeeting, some testMember, none, [testGroup]⟩

/-! Theorems for the claims. -/

/-- Characterization of every successful resolver execution: the reflection
group was read, the payload fields come from it and from the caller, and the
event list is the fixed read/check prefix followed by either the bare
publish (no phases update, with the conditions that leave the phases alone)
or the phases update produced by unlockAllStagesForPhase and then the
publish (with the conditions that toggle the discuss phase). -/
theorem resolve_success_shape (env : ResolverEnv) (authToken : AuthToken)
    (isUnvote : Bool) (reflectionGroupId : String) (d : VoteForReflectionGroupData)
    (tr : List ResolverEvent)
    (h : resolve env authToken isUnvote reflectionGroupId = (ResolveResult.success d, tr)) :
    ∃ rg, env.reflectionGroup = some rg ∧
      d.meetingId = rg.meetingId ∧ d.userId = getUserId authToken ∧
      d.reflectionGroupId = reflectionGroupId ∧
      ((d.unlockedStageIds = none ∧
          tr = successReadEvents isUnvote rg.meetingId (getUserId authToken) reflectionGroupId ++
              [ResolverEvent.publishEvent SubscriptionChannel.MEETING rg.meetingId
                 "VoteForReflectionGroupPayload" d] ∧
          (isUnvote = false → ∃ dp fs rest,
            env.meeting.phases.find? (fun p => p.phaseType == "discuss") = some dp ∧
              dp.stages = fs :: rest ∧ fs.isNavigableByFacilitator = true) ∧
          (isUnvote = true → voteCount env.reflectionGroups ≠ 0)) ∨
        (∃ newPhases stageIds,
          unlockAllStagesForPhase env.meeting.phases "discuss" true (!isUnvote) =
              some (newPhases, stageIds) ∧
            d.unlockedStageIds = some stageIds ∧
            tr = successReadEvents isUnvote rg.meetingId (getUserId authToken)
                reflectionGroupId ++
                [ResolverEvent.dbUpdatePhases rg.meetingId newPhases,
                 ResolverEvent.publishEvent SubscriptionChannel.MEETING rg.meetingId
                   "VoteForReflectionGroupPayload" d] ∧
            (isUnvote = false → ∃ dp fs rest,
              env.meeting.phases.find? (fun p => p.phaseType == "discuss") = some dp ∧
                dp.stages = fs :: rest ∧ fs.isNavigableByFacilitator = false) ∧
            (isUnvote = true → voteCount env.reflectionGroups = 0))) := by
  unfold resolve at h
  rcases hrg : env.reflectionGroup with _ | rg
  · simp only [hrg] at h
    simp [standardError, Prod.mk.injEq] at h
  · simp only [hrg] at h
    rcases ha : rg.isActive
    · simp only [ha, Bool.not_false, if_true] at h
      simp [standardError, Prod.mk.injEq] at h
    · simp only [ha, Bool.not_true, Bool.false_eq_true, if_false, ite_false] at h
      rcases ht : isTeamMember authToken env.meeting.teamId
      · simp only [ht, Bool.not_false, if_true] at h
        simp [standardError, Prod.mk.injEq] at h
      · simp only [ht, Bool.not_true, Bool.false_eq_true, if_false, ite_false] at h
        rcases he : env.meeting.endedAt with _ | endTime
        case some =>
          simp only [he, Option.isSome_some, if_true, ite_true] at h
          simp [standardError, Prod.mk.injEq] at h
        simp only [he, Option.isSome_none, Bool.false_eq_true, if_false, ite_false] at h
        rcases hp : isPhaseComplete VOTE env.meeting.phases
        case true =>
          simp only [hp, if_true, ite_true] at h
          simp [standardError, Prod.mk.injEq] at h
        simp only [hp, Bool.false_eq_true, if_false, ite_false] at h
        rcases hm : env.meetingMember with _ | mm
        · simp only [hm] at h
          simp [standardError, Prod.mk.injEq] at h
        · simp only [hm] at h
          rcases hv : env.votingError with _ | msg
          case some =>
            simp only [hv] at h
            simp [Prod.mk.injEq] at h
          simp only [hv] at h
          rcases hu : isUnvote
          all_goals subst hu
          · -- cast vote
            simp only [Bool.not_false, if_true, ite_true] at h
            rcases hd : env.meeting.phases.find? (fun p => p.phaseType == "discuss")
                with _ | dp
            · simp only [hd] at h
              simp [Prod.mk.injEq] at h
            · simp only [hd] at h
              rcases hs : dp.stages with _ | ⟨fs, rest⟩
              · simp only [hs] at h
                simp [Prod.mk.injEq] at h
              · simp only [hs] at h
                rcases hn : fs.isNavigableByFacilitator
                · -- first stage locked: unlock
                  simp only [hn, Bool.not_false, if_true, ite_true] at h
                  rcases hul : unlockAllStagesForPhase env.meeting.phases "discuss" true true
                      with _ | ⟨newPhases, stageIds⟩
                  · simp only [hul] at h
                    simp [Prod.mk.injEq] at h
                  · simp only [hul] at h
                    simp only [Prod.mk.injEq, ResolveResult.success.injEq] at h
                    obtain ⟨hdata, htr⟩ := h
                    subst hdata
                    subst htr
                    refine ⟨rg, rfl, rfl, rfl, rfl, Or.inr ⟨newPhases, stageIds, ?_, rfl,
                      rfl, ?_, ?_⟩⟩
                    · simpa using hul
                    · exact fun _ => ⟨dp, fs, rest, hd, hs, hn⟩
                    · intro hcontra; simp at hcontra
                · -- first stage already navigable: no update
                  simp only [hn, Bool.not_true, Bool.false_eq_true, if_false, ite_false,
                    Prod.mk.injEq, ResolveResult.success.injEq] at h
                  obtain ⟨hdata, htr⟩ := h
                  subst hdata
                  subst htr
                  refine ⟨rg, rfl, rfl, rfl, rfl, Or.inl ⟨rfl, rfl, ?_, ?_⟩⟩
                  · exact fun _ => ⟨dp, fs, rest, hd, hs, hn⟩
                  · intro hcontra; simp at hcontra
          · -- withdraw vote
            simp only [Bool.not_true, Bool.false_eq_true, if_false, ite_false] at h
            rcases hz : voteCount env.reflectionGroups == 0
            · simp only [hz, Bool.false_eq_true, if_false, ite_false,
                Prod.mk.injEq, ResolveResult.success.injEq] at h
              obtain ⟨hdata, htr⟩ := h
              subst hdata
              subst htr
              refine ⟨rg, rfl, rfl, rfl, rfl, Or.inl ⟨rfl, rfl, ?_, ?_⟩⟩
              · intro hcontra; simp at hcontra
              · intro _ hzero
                rw [hzero] at hz
                simp at hz
            · simp only [hz, if_true, ite_true] at h
              rcases hul : unlockAllStagesForPhase env.meeting.phases "discuss" true false
                  with _ | ⟨newPhases, stageIds⟩
              · simp only [hul] at h
                simp [Prod.mk.injEq] at h
              · simp only [hul] at h
                simp only [Prod.mk.injEq, ResolveResult.success.injEq] at h
                obtain ⟨hdata, htr⟩ := h
                subst hdata
                subst htr
                refine ⟨rg, rfl, rfl, rfl, rfl, Or.inr ⟨newPhases, stageIds, ?_, rfl,
                  rfl, ?_, ?_⟩⟩
                · simpa using hul
                · intro hcontra; simp at hcontra
                · exact fun _ => by simpa using hz

/-- Helper: on every execution in which one of the validation checks fails,
the resolver returns an error payload and its event list holds no write and
no publish. -/
theorem resolve_error_pair (env : ResolverEnv) (authToken : AuthToken)
    (isUnvote : Bool) (reflectionGroupId : String) (res : ResolveResult)
    (tr : List ResolverEvent)
    (hres : resolve env authToken isUnvote reflectionGroupId = (res, tr))
    (h : env.reflectionGroup = none ∨
      (∃ rg, env.reflectionGroup = some rg ∧ rg.isActive = false) ∨
      isTeamMember authToken env.meeting.teamId = false ∨
      env.meeting.endedAt.isSome = true ∨
      isPhaseComplete VOTE env.meeting.phases = true ∨
      env.meetingMember = none) :
    (∃ message userId, res = ResolveResult.error message userId) ∧
      ∀ e ∈ tr, isMutationEvent e = false := by
  unfold resolve at hres
  rcases hrg : env.reflectionGroup with _ | rg
  · simp only [hrg, Prod.mk.injEq] at hres
    obtain ⟨h1, h2⟩ := hres
    subst h1
    subst h2
    exact ⟨⟨_, _, rfl⟩, by intro e he; fin_cases he <;> rfl⟩
  · simp only [hrg] at hres
    rcases ha : rg.isActive
    · simp only [ha, Bool.not_false, if_true, ite_true, Prod.mk.injEq] at hres
      obtain ⟨h1, h2⟩ := hres
      subst h1
      subst h2
      exact ⟨⟨_, _, rfl⟩, by intro e he; fin_cases he <;> rfl⟩
    · simp only [ha, Bool.not_true, Bool.false_eq_true, if_false, ite_false] at hres
      rcases ht : isTeamMember authToken env.meeting.teamId
      · simp only [ht, Bool.not_false, if_true, ite_true, Prod.mk.injEq] at hres
        obtain ⟨h1, h2⟩ := hres
        subst h1
        subst h2
        exact ⟨⟨_, _, rfl⟩, by intro e he; fin_cases he <;> rfl⟩
      · simp only [ht, Bool.not_true, Bool.false_eq_true, if_false, ite_false] at hres
        rcases he : env.meeting.endedAt with _ | endTime
        case some =>
          simp only [he, Option.isSome_some, if_true, ite_true, Prod.mk.injEq] at hres
          obtain ⟨h1, h2⟩ := hres
          subst h1
          subst h2
          exact ⟨⟨_, _, rfl⟩, by intro e he; fin_cases he <;> rfl⟩
        simp only [he, Option.isSome_none, Bool.false_eq_true, if_false, ite_false] at hres
        rcases hp : isPhaseComplete VOTE env.meeting.phases
        case true =>
          simp only [hp, if_true, ite_true, Prod.mk.injEq] at hres
          obtain ⟨h1, h2⟩ := hres
          subst h1
          subst h2
          exact ⟨⟨_, _, rfl⟩, by intro e he; fin_cases he <;> rfl⟩
        simp only [hp, Bool.false_eq_true, if_false, ite_false] at hres
        rcases hm : env.meetingMember with _ | mm
        · simp only [hm, Prod.mk.injEq] at hres
          obtain ⟨h1, h2⟩ := hres
          subst h1
          subst h2
          exact ⟨⟨_, _, rfl⟩, by intro e he; fin_cases he <;> rfl⟩
        · exfalso
          rcases h with h | ⟨rg', hrg', hact'⟩ | h | h | h | h <;> simp_all

/-- C1. For every request failing a validation check (missing or inactive
reflection group, caller not a member of the meeting team, meeting already
ended, vote phase already complete, or no meeting-member record), the
resolver returns an error payload, performs no write to meeting or vote
state, and publishes nothing. -/
theorem voteForReflectionGroup_validation_error (env : ResolverEnv) (authToken : AuthToken)
    (isUnvote : Bool) (reflectionGroupId : String)
    (h : env.reflectionGroup = none ∨
      (∃ rg, env.reflectionGroup = some rg ∧ rg.isActive = false) ∨
      isTeamMember authToken env.meeting.teamId = false ∨
      env.meeting.endedAt.isSome = true ∨
      isPhaseComplete VOTE env.meeting.phases = true ∨
      env.meetingMember = none) :
    (∃ message userId, (resolve env authToken isUnvote reflectionGroupId).1 =
        ResolveResult.error message userId) ∧
      ∀ e ∈ (resolve env authToken isUnvote reflectionGroupId).2,
        isMutationEvent e = false :=
  resolve_error_pair env authToken isUnvote reflectionGroupId _ _ Prod.mk.eta.symm h

/-- Witness for C1: with the fixture environment deprived of its reflection
group, the resolver fails with an error payload and an event list free of
writes and publishes. -/
theorem voteForReflectionGroup_validation_error_witness :
    (∃ message userId,
        (resolve { testEnv with reflectionGroup := none } testToken false "group1").1 =
          ResolveResult.error message userId) ∧
      ∀ e ∈ (resolve { testEnv with reflectionGroup := none } testToken false "group1").2,
        isMutationEvent e = false :=
  voteForReflectionGroup_validation_error { testEnv with reflectionGroup := none }
    testToken false "group1" (Or.inl rfl)

/-- Helper: unlockStagesInPhaseList keeps a found phase findable and maps
its stages through setStageNavigability. -/
theorem find_unlockStagesInPhaseList (phaseType : String) (isForFacilitator isUnlock : Bool)
    (phases : List GenericMeetingPhase) (dp : GenericMeetingPhase)
    (hfind : phases.find? (fun p => p.phaseType == phaseType) = some dp) :
    ∃ dp2, (unlockStagesInPhaseList phaseType isForFacilitator isUnlock phases).find?
          (fun p => p.phaseType == phaseType) = some dp2 ∧
        dp2.stages = dp.stages.map (setStageNavigability isForFacilitator isUnlock) := by
  induction phases with
  | nil => cases hfind
  | cons p rest ih =>
    rcases hpt : p.phaseType == phaseType
    · rw [List.find?_cons_of_neg _ (by simp [hpt])] at hfind
      obtain ⟨dp2, hf2, hs2⟩ := ih hfind
      refine ⟨dp2, ?_, hs2⟩
      unfold unlockStagesInPhaseList
      rw [if_neg (by simp [hpt])]
      rw [List.find?_cons_of_neg _ (by simp [hpt])]
      exact hf2
    · rw [List.find?_cons_of_pos _ (by simp [hpt])] at hfind
      injection hfind with hdp
      subst hdp
      unfold unlockStagesInPhaseList
      rw [if_pos (by simp [hpt])]
      rw [List.find?_cons_of_pos _ (by simp [hpt])]
      exact ⟨_, rfl, rfl⟩

/-- Helper: every stage produced by setStageNavigability with the
facilitator flag selected carries that flag equal to isUnlock. -/
theorem setStageNavigability_facilitator (isUnlock : Bool) (s : GenericMeetingStage) :
    (setStageNavigability true isUnlock s).isNavigableByFacilitator = isUnlock := by
  simp [setStageNavigability]

/-- C5. Vote tallying: for every list of reflection groups loaded for a
meeting, the vote count the resolver computes equals the sum over all groups
of the length of that group voterIds list, and it is zero for the empty
list of groups. -/
theorem voteCount_is_sum_of_voterIds_lengths (groups : List ReflectionGroup) :
    voteCount groups = (groups.map (fun g => g.voterIds.length)).sum ∧
      voteCount ([] : List ReflectionGroup) = 0 := by
  constructor
  · have h : ∀ (l : List ReflectionGroup) (n : Nat),
        l.foldl (fun sum group => sum + group.voterIds.length) n =
          n + (l.map (fun g => g.voterIds.length)).sum := by
      intro l
      induction l with
      | nil => intro n; simp
      | cons g rest ih => intro n; simp only [List.foldl, List.map, List.sum_cons, ih]; omega
    simpa [voteCount] using h groups 0
  · rfl

/-- The payload of the fixture vote: user1 votes for group1 and the discuss
stage is unlocked. -/
def testData : VoteForReflectionGroupData :=
  ⟨"meeting1", "user1", "group1", some ["discussStage1"]⟩

/-- C2. Temporal order of every successful execution: the event list is the
read/check prefix (reflection-group read, meeting read, the three passed
auth checks, the member read, the vote write, the vote-state read), then the
optional phases update, then the publish; the publish is the single publish
of the execution and the last event before returning. -/
theorem voteForReflectionGroup_success_event_order (env : ResolverEnv)
    (authToken : AuthToken) (isUnvote : Bool) (reflectionGroupId : String)
    (d : VoteForReflectionGroupData)
    (h : (resolve env authToken isUnvote reflectionGroupId).1 = ResolveResult.success d) :
    ∃ upd, (resolve env authToken isUnvote reflectionGroupId).2 =
        successReadEvents isUnvote d.meetingId d.userId reflectionGroupId ++ upd ++
          [ResolverEvent.publishEvent SubscriptionChannel.MEETING d.meetingId
            "VoteForReflectionGroupPayload" d] ∧
      (upd = [] ∨
        ∃ newPhases, upd = [ResolverEvent.dbUpdatePhases d.meetingId newPhases]) ∧
      (resolve env authToken isUnvote reflectionGroupId).2.countP isPublishEvent = 1 := by
  have hpair : resolve env authToken isUnvote reflectionGroupId =
      (ResolveResult.success d, (resolve env authToken isUnvote reflectionGroupId).2) := by
    rw [← h]
  obtain ⟨rg, hrg, hmid, huid, hrgid, hcase⟩ :=
    resolve_success_shape env authToken isUnvote reflectionGroupId d _ hpair
  rcases hcase with ⟨-, htr, -, -⟩ | ⟨newPhases, stageIds, -, -, htr, -, -⟩
  · refine ⟨[], ?_, Or.inl rfl, ?_⟩
    · rw [hmid, huid, htr]
      simp
    · rw [htr]
      simp [successReadEvents, isPublishEvent, List.countP_append, List.countP_cons]
  · refine ⟨[ResolverEvent.dbUpdatePhases d.meetingId newPhases], ?_,
      Or.inr ⟨newPhases, rfl⟩, ?_⟩
    · rw [hmid, huid, htr]
      simp
    · rw [htr]
      simp [successReadEvents, isPublishEvent, List.countP_append, List.countP_cons]

/-- Witness for C2: the fixture vote succeeds and its event list decomposes
as the read/check prefix, one phases update, and the final publish. -/
theorem voteForReflectionGroup_success_event_order_witness :
    ∃ upd, (resolve testEnv testToken false "group1").2 =
        successReadEvents false testData.meetingId testData.userId "group1" ++ upd ++
          [ResolverEvent.publishEvent SubscriptionChannel.MEETING testData.meetingId
            "VoteForReflectionGroupPayload" testData] ∧
      (upd = [] ∨
        ∃ newPhases, upd = [ResolverEvent.dbUpdatePhases testData.meetingId newPhases]) ∧
      (resolve testEnv testToken false "group1").2.countP isPublishEvent = 1 :=
  voteForReflectionGroup_success_event_order testEnv testToken false "group1" testData rfl

/-- C3. On every successful execution the one publish of the execution is on
the meeting subscription channel keyed by the meeting id of the voted-on
reflection group, and the published data is exactly the payload the resolver
returns. -/
theorem voteForReflectionGroup_publish_channel_and_data (env : ResolverEnv)
    (authToken : AuthToken) (isUnvote : Bool) (reflectionGroupId : String)
    (d : VoteForReflectionGroupData)
    (h : (resolve env authToken isUnvote reflectionGroupId).1 = ResolveResult.success d) :
    ∃ rg, env.reflectionGroup = some rg ∧ d.meetingId = rg.meetingId ∧
      (resolve env authToken isUnvote reflectionGroupId).2.filter isPublishEvent =
        [ResolverEvent.publishEvent SubscriptionChannel.MEETING rg.meetingId
          "VoteForReflectionGroupPayload" d] := by
  have hpair : resolve env authToken isUnvote reflectionGroupId =
      (ResolveResult.success d, (resolve env authToken isUnvote reflectionGroupId).2) := by
    rw [← h]
  obtain ⟨rg, hrg, hmid, huid, hrgid, hcase⟩ :=
    resolve_success_shape env authToken isUnvote reflectionGroupId d _ hpair
  refine ⟨rg, hrg, hmid, ?_⟩
  rcases hcase with ⟨-, htr, -, -⟩ | ⟨newPhases, stageIds, -, -, htr, -, -⟩ <;>
    rw [htr] <;>
    simp [successReadEvents, isPublishEvent, List.filter_append, List.filter_cons]

/-- Witness for C3: the fixture vote publishes once, on the meeting channel
keyed by meeting1, carrying exactly the returned payload. -/
theorem voteForReflectionGroup_publish_channel_and_data_witness :
    ∃ rg, testEnv.reflectionGroup = some rg ∧ testData.meetingId = rg.meetingId ∧
      (resolve testEnv testToken false "group1").2.filter isPublishEvent =
        [ResolverEvent.publishEvent SubscriptionChannel.MEETING rg.meetingId
          "VoteForReflectionGroupPayload" testData] :=
  voteForReflectionGroup_publish_channel_and_data testEnv testToken false "group1"
    testData rfl

/-- C4. Phase unlocking toggles with votes on every successful execution:
a cast vote finding the first discuss stage not facilitator-navigable emits
the phases update produced by unlockAllStagesForPhase with every discuss
stage unlocked; a withdrawn vote leaving the total vote count at zero emits
the update with every discuss stage locked; a cast vote finding the first
discuss stage already navigable, or a withdrawal leaving a nonzero count,
emits no phases update at all. -/
theorem voteForReflectionGroup_phase_toggle (env : ResolverEnv) (authToken : AuthToken)
    (isUnvote : Bool) (reflectionGroupId : String) (d : VoteForReflectionGroupData)
    (h : (resolve env authToken isUnvote reflectionGroupId).1 = ResolveResult.success d) :
    (∀ dp fs rest, isUnvote = false →
      env.meeting.phases.find? (fun p => p.phaseType == "discuss") = some dp →
      dp.stages = fs :: rest → fs.isNavigableByFacilitator = false →
      ∃ newPhases stageIds,
        unlockAllStagesForPhase env.meeting.phases "discuss" true true =
            some (newPhases, stageIds) ∧
          ResolverEvent.dbUpdatePhases d.meetingId newPhases ∈
            (resolve env authToken isUnvote reflectionGroupId).2 ∧
          ∃ dp2, newPhases.find? (fun p => p.phaseType == "discuss") = some dp2 ∧
            ∀ s ∈ dp2.stages, s.isNavigableByFacilitator = true) ∧
      (isUnvote = true → voteCount env.reflectionGroups = 0 →
        ∃ newPhases stageIds,
          unlockAllStagesForPhase env.meeting.phases "discuss" true false =
              some (newPhases, stageIds) ∧
            ResolverEvent.dbUpdatePhases d.meetingId newPhases ∈
              (resolve env authToken isUnvote reflectionGroupId).2 ∧
            ∃ dp2, newPhases.find? (fun p => p.phaseType == "discuss") = some dp2 ∧
              ∀ s ∈ dp2.stages, s.isNavigableByFacilitator = false) ∧
      (∀ dp fs rest, isUnvote = false →
        env.meeting.phases.find? (fun p => p.phaseType == "discuss") = some dp →
        dp.stages = fs :: rest → fs.isNavigableByFacilitator = true →
        ∀ mid ps, ResolverEvent.dbUpdatePhases mid ps ∉
          (resolve env authToken isUnvote reflectionGroupId).2) ∧
      (isUnvote = true → voteCount env.reflectionGroups ≠ 0 →
        ∀ mid ps, ResolverEvent.dbUpdatePhases mid ps ∉
          (resolve env authToken isUnvote reflectionGroupId).2) := by
  have hpair : resolve env authToken isUnvote reflectionGroupId =
      (ResolveResult.success d, (resolve env authToken isUnvote reflectionGroupId).2) := by
    rw [← h]
  obtain ⟨rg, hrg, hmid, huid, hrgid, hcase⟩ :=
    resolve_success_shape env authToken isUnvote reflectionGroupId d _ hpair
  refine ⟨?_, ?_, ?_, ?_⟩
  · intro dp fs rest hIU hfind hstages hnav
    subst hIU
    rcases hcase with ⟨-, -, hnoupd, -⟩ | ⟨newPhases, stageIds, hul, -, htr, -, -⟩
    · obtain ⟨dp', fs', rest', hfind', hs', hn'⟩ := hnoupd rfl
      rw [hfind] at hfind'
      injection hfind' with e
      subst e
      rw [hstages] at hs'
      injection hs' with e1 e2
      subst e1
      rw [hnav] at hn'
      simp at hn'
    · simp only [Bool.not_false] at hul
      refine ⟨newPhases, stageIds, hul, ?_, ?_⟩
      · rw [hmid, htr]
        simp
      · unfold unlockAllStagesForPhase at hul
        rw [hfind] at hul
        injection hul with e
        have e1 : unlockStagesInPhaseList "discuss" true true env.meeting.phases =
            newPhases := congrArg Prod.fst e
        obtain ⟨dp2, hf2, hs2⟩ :=
          find_unlockStagesInPhaseList "discuss" true true env.meeting.phases dp hfind
        refine ⟨dp2, ?_, ?_⟩
        · rw [← e1]
          exact hf2
        · intro s hs
          rw [hs2] at hs
          obtain ⟨s', -, rfl⟩ := List.mem_map.1 hs
          exact setStageNavigability_facilitator true s'
  · intro hIU hzero
    subst hIU
    rcases hcase with ⟨-, -, -, hnz⟩ | ⟨newPhases, stageIds, hul, -, htr, -, -⟩
    · exact absurd hzero (hnz rfl)
    · simp only [Bool.not_true] at hul
      refine ⟨newPhases, stageIds, hul, ?_, ?_⟩
      · rw [hmid, htr]
        simp
      · unfold unlockAllStagesForPhase at hul
        rcases hfd : env.meeting.phases.find? (fun p => p.phaseType == "discuss")
            with _ | dp
        · rw [hfd] at hul
          cases hul
        · rw [hfd] at hul
          injection hul with e
          have e1 : unlockStagesInPhaseList "discuss" true false env.meeting.phases =
              newPhases := congrArg Prod.fst e
          obtain ⟨dp2, hf2, hs2⟩ :=
            find_unlockStagesInPhaseList "discuss" true false env.meeting.phases dp hfd
          refine ⟨dp2, ?_, ?_⟩
          · rw [← e1]
            exact hf2
          · intro s hs
            rw [hs2] at hs
            obtain ⟨s', -, rfl⟩ := List.mem_map.1 hs
            exact setStageNavigability_facilitator false s'
  · intro dp fs rest hIU hfind hstages hnav mid ps
    subst hIU
    rcases hcase with ⟨-, htr, -, -⟩ | ⟨newPhases, stageIds, -, -, -, hcondF, -⟩
    · rw [htr]
      simp [successReadEvents]
    · obtain ⟨dp', fs', rest', hfind', hs', hn'⟩ := hcondF rfl
      rw [hfind] at hfind'
      injection hfind' with e
      subst e
      rw [hstages] at hs'
      injection hs' with e1 e2
      subst e1
      rw [hnav] at hn'
      simp at hn'
  · intro hIU hnz mid ps
    subst hIU
    rcases hcase with ⟨-, htr, -, -⟩ | ⟨newPhases, stageIds, -, -, -, -, hz⟩
    · rw [htr]
      simp [successReadEvents]
    · exact absurd (hz rfl) hnz

/-- Witness for C4: the fixture vote unlocks the discuss phase, and the
other three cases of the toggle hold at the same concrete input. -/
theorem voteForReflectionGroup_phase_toggle_witness :
    (∀ dp fs rest, false = false →
      testEnv.meeting.phases.find? (fun p => p.phaseType == "discuss") = some dp →
      dp.stages = fs :: rest → fs.isNavigableByFacilitator = false →
      ∃ newPhases stageIds,
        unlockAllStagesForPhase testEnv.meeting.phases "discuss" true true =
            some (newPhases, stageIds) ∧
          ResolverEvent.dbUpdatePhases testData.meetingId newPhases ∈
            (resolve testEnv testToken false "group1").2 ∧
          ∃ dp2, newPhases.find? (fun p => p.phaseType == "discuss") = some dp2 ∧
            ∀ s ∈ dp2.stages, s.isNavigableByFacilitator = true) ∧
      (false = true → voteCount testEnv.reflectionGroups = 0 →
        ∃ newPhases stageIds,
          unlockAllStagesForPhase testEnv.meeting.phases "discuss" true false =
              some (newPhases, stageIds) ∧
            ResolverEvent.dbUpdatePhases testData.meetingId newPhases ∈
              (resolve testEnv testToken false "group1").2 ∧
            ∃ dp2, newPhases.find? (fun p => p.phaseType == "discuss") = some dp2 ∧
              ∀ s ∈ dp2.stages, s.isNavigableByFacilitator = false) ∧
      (∀ dp fs rest, false = false →
        testEnv.meeting.phases.find? (fun p => p.phaseType == "discuss") = some dp →
        dp.stages = fs :: rest → fs.isNavigableByFacilitator = true →
        ∀ mid ps, ResolverEvent.dbUpdatePhases mid ps ∉
          (resolve testEnv testToken false "group1").2) ∧
      (false = true → voteCount testEnv.reflectionGroups ≠ 0 →
        ∀ mid ps, ResolverEvent.dbUpdatePhases mid ps ∉
          (resolve testEnv testToken false "group1").2) :=
  voteForReflectionGroup_phase_toggle testEnv testToken false "group1" testData rfl

/-- C6. After the migration up() has run, every UPDATE applied to a row of
the relational User table stores updatedAt = now (the BEFORE UPDATE trigger
rewrites the proposed row), regardless of what value the SET clause supplied
for updatedAt. -/
theorem migration_up_forces_updatedAt (s s' : Migration.PgSchemaState)
    (hup : Migration.up s = some s') (setClause : Migration.UserRow → Migration.UserRow)
    (row : Migration.UserRow) (now : Nat) :
    (Migration.applyUserUpdate s' now setClause row).updatedAt = now := by
  unfold Migration.up at hup
  by_cases h : s.hasUserUpdatedAtTrigger = true
  · simp [h] at hup
  · rw [if_neg (by simp [h])] at hup
    injection hup with hup
    subst hup
    simp [Migration.applyUserUpdate, Migration.set_updatedAt]

/-- Witness for C6 at a concrete schema state, row and SET clause that
itself tries to write updatedAt = 999. -/
theorem migration_up_forces_updatedAt_witness :
    (Migration.applyUserUpdate ⟨true, true⟩ 5
        (fun r => { r with updatedAt := 999 }) ⟨"u1", "a", 1⟩).updatedAt = 5 :=
  migration_up_forces_updatedAt ⟨false, false⟩ ⟨true, true⟩ rfl
    (fun r => { r with updatedAt := 999 }) ⟨"u1", "a", 1⟩ 5

/-- C7. The migration round-trips: whenever up() succeeds and down() then
succeeds, the trigger and the function both exist in between and neither
exists afterwards; when the pre-migration state had neither object, the
state after down() equals the pre-migration state. -/
theorem migration_up_down_roundtrip (s s' s'' : Migration.PgSchemaState)
    (h1 : Migration.up s = some s') (h2 : Migration.down s' = some s'') :
    s'.hasSetUpdatedAtFn = true ∧ s'.hasUserUpdatedAtTrigger = true ∧
      s''.hasSetUpdatedAtFn = false ∧ s''.hasUserUpdatedAtTrigger = false ∧
      (s = ⟨false, false⟩ → s'' = s) := by
  unfold Migration.up at h1
  by_cases h : s.hasUserUpdatedAtTrigger = true
  · simp [h] at h1
  · rw [if_neg (by simp [h])] at h1
    injection h1 with h1
    subst h1
    unfold Migration.down at h2
    rw [if_pos (by simp)] at h2
    injection h2 with h2
    subst h2
    refine ⟨rfl, rfl, rfl, rfl, fun hs => ?_⟩
    rw [hs]

/-- Witness for C7 from the empty pre-migration state. -/
theorem migration_up_down_roundtrip_witness :
    (⟨true, true⟩ : Migration.PgSchemaState).hasSetUpdatedAtFn = true ∧
      (⟨true, true⟩ : Migration.PgSchemaState).hasUserUpdatedAtTrigger = true ∧
      (⟨false, false⟩ : Migration.PgSchemaState).hasSetUpdatedAtFn = false ∧
      (⟨false, false⟩ : Migration.PgSchemaState).hasUserUpdatedAtTrigger = false ∧
      ((⟨false, false⟩ : Migration.PgSchemaState) = ⟨false, false⟩ →
        (⟨false, false⟩ : Migration.PgSchemaState) = ⟨false, false⟩) :=
  migration_up_down_roundtrip ⟨false, false⟩ ⟨true, true⟩ ⟨false, false⟩ rfl rfl

/-- C8. Frame condition: every phases update the resolver emits, applied to
a NewMeeting record with the RethinkDB single-field merge semantics, writes
exactly the phases field and leaves the id, endedAt, maxVotesPerGroup and
teamId fields unchanged. -/
theorem resolve_update_writes_only_phases (env : ResolverEnv) (authToken : AuthToken)
    (isUnvote : Bool) (reflectionGroupId : String) (mid : String)
    (ps : List GenericMeetingPhase)
    (h : ResolverEvent.dbUpdatePhases mid ps ∈ (resolve env authToken isUnvote reflectionGroupId).2)
    (m : MeetingRetrospective) :
    (applyPhasesUpdate m ps).phases = ps ∧
      (applyPhasesUpdate m ps).id = m.id ∧
      (applyPhasesUpdate m ps).endedAt = m.endedAt ∧
      (applyPhasesUpdate m ps).maxVotesPerGroup = m.maxVotesPerGroup ∧
      (applyPhasesUpdate m ps).teamId = m.teamId := by
  simp [applyPhasesUpdate]

/-- Witness for C8: the fixture vote emits a phases update, and applying it
to the fixture meeting changes only the phases field. -/
theorem resolve_update_writes_only_phases_witness :
    (applyPhasesUpdate testMeeting
          (unlockStagesInPhaseList "discuss" true true testMeeting.phases)).phases =
        unlockStagesInPhaseList "discuss" true true testMeeting.phases ∧
      (applyPhasesUpdate testMeeting
          (unlockStagesInPhaseList "discuss" true true testMeeting.phases)).id =
        testMeeting.id ∧
      (applyPhasesUpdate testMeeting
          (unlockStagesInPhaseList "discuss" true true testMeeting.phases)).endedAt =
        testMeeting.endedAt ∧
      (applyPhasesUpdate testMeeting
          (unlockStagesInPhaseList "discuss" true true testMeeting.phases)).maxVotesPerGroup =
        testMeeting.maxVotesPerGroup ∧
      (applyPhasesUpdate testMeeting
          (unlockStagesInPhaseList "discuss" true true testMeeting.phases)).teamId =
        testMeeting.teamId :=
  resolve_update_writes_only_phases testEnv testToken false "group1" "meeting1"
    (unlockStagesInPhaseList "discuss" true true testMeeting.phases) (by decide) testMeeting

/-- C9. Invariant of the spotlight column computation: for every positive
card-width constant and positive container width, the hook computes a column
list of length at least 1 and at most 3; for a group count of at most 2 it
is the single column [0]; and for more than 2 groups the column count
either equals maxColumns or is reduced by exactly one, the reduction
happening only when groups-per-column falls below 2 while more than one
column was available. -/
theorem useSpotlightColumns_bounds (cardWidth width groupsCount : Nat)
    (hc : 0 < cardWidth) (hw : 0 < width) :
    ∃ cols, useSpotlightColumns cardWidth width groupsCount = some cols ∧
      1 ≤ cols.length ∧ cols.length ≤ 3 ∧
      (groupsCount ≤ 2 → cols = [0]) ∧
      (2 < groupsCount →
        cols.length = spotlightMaxColumns cardWidth width ∨
          (spotlightGroupsPerColumn groupsCount (spotlightMaxColumns cardWidth width) < 2 ∧
            spotlightMaxColumns cardWidth width ≠ 1 ∧
            cols.length = spotlightMaxColumns cardWidth width - 1)) := by
  have hw' : ¬width = 0 := by omega
  by_cases hg : groupsCount ≤ 2
  · refine ⟨[0], ?_, ?_, ?_, fun _ => rfl, fun h => absurd hg (by omega)⟩
    · simp only [useSpotlightColumns]
      rw [if_neg hw', if_pos hg]
    · simp
    · simp
  · have hmc1 : 1 ≤ spotlightMaxColumns cardWidth width := by
      unfold spotlightMaxColumns; omega
    have hmc3 : spotlightMaxColumns cardWidth width ≤ 3 := by
      unfold spotlightMaxColumns; omega
    by_cases hcond :
        spotlightGroupsPerColumn groupsCount (spotlightMaxColumns cardWidth width) < 2 ∧
          spotlightMaxColumns cardWidth width ≠ 1
    · refine ⟨List.range (spotlightMaxColumns cardWidth width - 1), ?_, ?_, ?_, ?_, ?_⟩
      · simp only [useSpotlightColumns]
        unfold spotlightMaxColumns spotlightGroupsPerColumn at hcond
        rw [if_neg hw', if_neg hg, if_pos hcond]
        rfl
      · simp only [List.length_range]; omega
      · simp only [List.length_range]; omega
      · intro h; exact absurd h hg
      · intro _
        right
        exact ⟨hcond.1, hcond.2, by simp⟩
    · refine ⟨List.range (spotlightMaxColumns cardWidth width), ?_, ?_, ?_, ?_, ?_⟩
      · simp only [useSpotlightColumns]
        unfold spotlightMaxColumns spotlightGroupsPerColumn at hcond
        rw [if_neg hw', if_neg hg, if_neg hcond]
        rfl
      · simp only [List.length_range]; omega
      · simp only [List.length_range]; omega
      · intro h; exact absurd h hg
      · intro _
        left
        simp

/-- Witness for C9 at card width 264, container width 800 and 7 groups. -/
theorem useSpotlightColumns_bounds_witness :
    ∃ cols, useSpotlightColumns 264 800 7 = some cols ∧
      1 ≤ cols.length ∧ cols.length ≤ 3 ∧
      (7 ≤ 2 → cols = [0]) ∧
      (2 < 7 →
        cols.length = spotlightMaxColumns 264 800 ∨
          (spotlightGroupsPerColumn 7 (spotlightMaxColumns 264 800) < 2 ∧
            spotlightMaxColumns 264 800 ≠ 1 ∧
            cols.length = spotlightMaxColumns 264 800 - 1)) :=
  useSpotlightColumns_bounds 264 800 7 (by decide) (by decide)

/-- C10 counterexample: with two notifications for the
MEETING_STAGE_TIME_LIMIT_START event, the first with a null channelId and
the second with channelId C1, the toggle computed by the component is
inactive although an entry with that event and a non-null channelId exists,
so the claimed equivalence fails at this input. -/
theorem slackToggleActive_claim_counterexample :
    slackToggleActive
        [⟨none, "MEETING_STAGE_TIME_LIMIT_START"⟩,
         ⟨some "C1", "MEETING_STAGE_TIME_LIMIT_START"⟩] = false ∧
      slackToggleActiveClaim
        [⟨none, "MEETING_STAGE_TIME_LIMIT_START"⟩,
         ⟨some "C1", "MEETING_STAGE_TIME_LIMIT_START"⟩] = true := by
  constructor <;> rfl

/-- C10 amended. The toggle is active iff the first notification whose event
is MEETING_STAGE_TIME_LIMIT_START exists and carries a truthy (non-null,
non-empty) channelId; and for every click while the Slack integration is
active and no submission is in flight, the mutation sent carries
slackChannelId null when the toggle was active and the default team channel
id when it was inactive. -/
theorem slackToggle_first_match_and_click (notifications : List SlackNotification)
    (sl : SlackIntegration) (submitting : Bool) (teamId : String)
    (hActive : sl.isActive = true) (hSubmitting : submitting = false) :
    (slackToggleActive notifications = true ↔
      ∃ n, notifications.find?
            (fun x => x.event == "MEETING_STAGE_TIME_LIMIT_START") = some n ∧
          ∃ cid, n.channelId = some cid ∧ cid ≠ "") ∧
      onClick (some sl) submitting teamId =
        ClickAction.sendMutation
          (if slackToggleActive sl.notifications then none else some sl.defaultTeamChannelId)
          ["MEETING_STAGE_TIME_LIMIT_START"] teamId := by
  constructor
  · constructor
    · intro h
      unfold slackToggleActive at h
      rcases hf : notifications.find?
          (fun x => x.event == "MEETING_STAGE_TIME_LIMIT_START") with _ | n
      · rw [hf] at h; cases h
      · rw [hf] at h
        change truthyString n.channelId = true at h
        rcases hc : n.channelId with _ | cid
        · rw [hc] at h; simp [truthyString] at h
        · rw [hc] at h
          simp only [truthyString, decide_eq_true_eq] at h
          exact ⟨n, hf, cid, hc, h⟩
    · rintro ⟨n, hf, cid, hc, hne⟩
      unfold slackToggleActive
      rw [hf]
      change truthyString n.channelId = true
      rw [hc]
      simp [truthyString, hne]
  · simp [onClick, hActive, hSubmitting]

/-- Witness for C10 amended: a single notification with the stage-timer
event and channel C1 makes the toggle active, and a click then sends the
mutation with a null slackChannelId. -/
theorem slackToggle_first_match_and_click_witness :
    (slackToggleActive [⟨some "C1", "MEETING_STAGE_TIME_LIMIT_START"⟩] = true ↔
      ∃ n, ([⟨some "C1", "MEETING_STAGE_TIME_LIMIT_START"⟩] : List SlackNotification).find?
            (fun x => x.event == "MEETING_STAGE_TIME_LIMIT_START") = some n ∧
          ∃ cid, n.channelId = some cid ∧ cid ≠ "") ∧
      onClick (some ⟨true, "chanDefault", [⟨some "C1", "MEETING_STAGE_TIME_LIMIT_START"⟩]⟩)
          false "team1" =
        ClickAction.sendMutation
          (if slackToggleActive
              (⟨true, "chanDefault",
                [⟨some "C1", "MEETING_STAGE_TIME_LIMIT_START"⟩]⟩ : SlackIntegration).notifications
            then none
            else some (⟨true, "chanDefault",
              [⟨some "C1", "MEETING_STAGE_TIME_LIMIT_START"⟩]⟩ : SlackIntegration).defaultTeamChannelId)
          ["MEETING_STAGE_TIME_LIMIT_START"] "team1" :=
  slackToggle_first_match_and_click [⟨some "C1", "MEETING_STAGE_TIME_LIMIT_START"⟩]
    ⟨true, "chanDefault", [⟨some "C1", "MEETING_STAGE_TIME_LIMIT_START"⟩]⟩ false "team1" rfl rfl
